import Mathlib

/-!
Verification of the Find-your-Team repository against its natural-language
specification.  The Python source is shallowly embedded: numeric scores are
modelled with exact rationals, validated constructors return `Except` or
`Option`, and the stateful drain loop of the offline queue is modelled as an
explicit step function on the per-message retry state.
-/

namespace FYT

/-! ## Core data model (src/models/core_models.py) -/

/-- Embeds `TeamMetrics` (core_models.py lines 132-171).  Only the seven
numeric fields matter for the derived score and grade. -/
structure TeamMetrics where
  productivity : ℚ
  collaboration : ℚ
  satisfaction : ℚ
  goal_achievement : ℚ
  innovation_score : ℚ
  communication_quality : ℚ
  conflict_resolution : ℚ
deriving DecidableEq

/-- `TeamMetrics.overall_score`: the weighted sum over the weights dict
`{productivity: 0.25, collaboration: 0.25, satisfaction: 0.20,
goal_achievement: 0.15, innovation_score: 0.10, communication_quality: 0.05}`
(core_models.py lines 144-156). -/
def TeamMetrics.overall_score (m : TeamMetrics) : ℚ :=
  m.productivity * (25/100) + m.collaboration * (25/100) + m.satisfaction * (20/100)
    + m.goal_achievement * (15/100) + m.innovation_score * (10/100)
    + m.communication_quality * (5/100)

/-- `TeamMetrics.performance_grade` (core_models.py lines 158-171). -/
def TeamMetrics.performance_grade (m : TeamMetrics) : String :=
  if 9/10 ≤ m.overall_score then "A+"
  else if 8/10 ≤ m.overall_score then "A"
  else if 7/10 ≤ m.overall_score then "B"
  else if 6/10 ≤ m.overall_score then "C"
  else "D"

/-- The concrete metrics of testable property 1 of the spec. -/
def sampleMetrics : TeamMetrics :=
  { productivity := 87/100, collaboration := 92/100, satisfaction := 89/100
    goal_achievement := 94/100, innovation_score := 85/100
    communication_quality := 91/100, conflict_resolution := 0 }

/-- Embeds the pydantic validation pipeline of `UserProfile.confidence_score`
(core_models.py lines 202 and 215-218).  The field declares hard bounds
`ge=0, le=100`, which pydantic v2 checks during core validation; the
`validate_confidence` after-mode validator `max(0, min(100, v))` only runs on
values that already passed the bounds check. -/
def validate_confidence (v : ℤ) : Except String ℤ :=
  if v < 0 ∨ 100 < v then Except.error "confidence_score out of range"
  else Except.ok (max 0 (min 100 v))

/-- Characters Python `str.strip()` removes by default. -/
def isPySpace (c : Char) : Bool :=
  c = ' ' || c = '\t' || c = '\n' || c = '\r' || c = '\x0b' || c = '\x0c'

/-- Python `str.strip()` on whitespace, as used by the list normalizers in
core_models.py. -/
def pyStrip (s : String) : String :=
  String.mk (((s.data.dropWhile isPySpace).reverse.dropWhile isPySpace).reverse)

/-- Python `str.title()`: the first character of every alphabetic run is
uppercased, the rest lowercased. -/
def pyTitleAux : Bool → List Char → List Char
  | _, [] => []
  | prevCased, c :: cs =>
    if c.isAlpha then
      (if prevCased then c.toLower else c.toUpper) :: pyTitleAux true cs
    else
      c :: pyTitleAux false cs

/-- Python `str.title()` lifted to `String`. -/
def pyTitle (s : String) : String := String.mk (pyTitleAux false s.data)

/-- Embeds validation of the `core` field of `Values` (core_models.py lines
58-67): pydantic v2 first checks the declared list bounds
`min_length=1, max_length=10` on the raw input, then the after-mode
`validate_values` normalizer keeps only entries whose `strip()` is truthy and
maps `strip().title()` over them. -/
def validate_values_core (v : List String) : Except String (List String) :=
  if v.length < 1 then Except.error "core list too short"
  else if 10 < v.length then Except.error "core list too long"
  else Except.ok ((v.filter (fun s => pyStrip s ≠ "")).map (fun s => pyTitle (pyStrip s)))

/-! ## Matching agent (src/agents/matching_agent.py) -/

/-- Embeds `MatchScore` (core_models.py lines 289-295): five scores, each
declared with pydantic bounds `ge=0.0, le=1.0`. -/
structure MatchScore where
  overall_score : ℚ
  skill_alignment : ℚ
  value_alignment : ℚ
  work_style_compatibility : ℚ
  purpose_alignment : ℚ
deriving DecidableEq

/-- Embeds the `MatchScore` construction inside
`MatchingAgent.find_team_matches` (matching_agent.py lines 83-89) for a
search hit with raw score `score`: `overall_score = min(score/10.0, 1.0)`
while the four sub-scores are the unclamped `score/10.0`, and pydantic then
enforces the 0-1 bounds of every field.  `none` models the ValidationError
path (the surrounding `except` makes the whole call return `[]`). -/
def matchScoreOfHit (score : ℚ) : Option MatchScore :=
  let m : MatchScore :=
    { overall_score := min (score/10) 1
      skill_alignment := score/10
      value_alignment := score/10
      work_style_compatibility := score/10
      purpose_alignment := score/10 }
  if 0 ≤ m.overall_score ∧ m.overall_score ≤ 1
      ∧ 0 ≤ m.skill_alignment ∧ m.skill_alignment ≤ 1
      ∧ 0 ≤ m.value_alignment ∧ m.value_alignment ≤ 1
      ∧ 0 ≤ m.work_style_compatibility ∧ m.work_style_compatibility ≤ 1
      ∧ 0 ≤ m.purpose_alignment ∧ m.purpose_alignment ≤ 1
  then some m else none

/-! ## Team agent health alerts (src/agents/team_agent.py lines 487-510) -/

/-- The four health indicators produced by `_calculate_health_indicators`;
`_generate_health_alerts` reads exactly these keys. -/
structure HealthIndicators where
  communication_health : ℚ
  collaboration_health : ℚ
  productivity_health : ℚ
  engagement_health : ℚ
deriving DecidableEq

/-- One warning alert dict as built by `_generate_health_alerts`. -/
structure HealthAlert where
  alert_type : String
  category : String
  message : String
  severity : String
  current_value : ℚ
  threshold : ℚ
deriving DecidableEq

/-- The alert built for an indicator below its threshold: severity is
`"medium" if indicators[indicator] > threshold * 0.8 else "high"`
(team_agent.py line 504). -/
def healthAlert (category : String) (value threshold : ℚ) : HealthAlert :=
  { alert_type := "warning"
    category := category
    message := "Low " ++ category ++ " score detected"
    severity := if threshold * (4/5) < value then "medium" else "high"
    current_value := value
    threshold := threshold }

/-- One iteration of the threshold loop of `_generate_health_alerts`. -/
def checkIndicator (category : String) (value threshold : ℚ) : List HealthAlert :=
  if value < threshold then [healthAlert category value threshold] else []

/-- Embeds `TeamAgent._generate_health_alerts`: the loop over the four
thresholds (communication 0.6, collaboration 0.6, productivity 0.7,
engagement 0.6) in dict order. -/
def generate_health_alerts (ind : HealthIndicators) : List HealthAlert :=
  checkIndicator "communication" ind.communication_health (6/10)
    ++ checkIndicator "collaboration" ind.collaboration_health (6/10)
    ++ checkIndicator "productivity" ind.productivity_health (7/10)
    ++ checkIndicator "engagement" ind.engagement_health (6/10)

/-- Modelled from the amended claim wording: the same alert but with
severity `"high"` when the value is less than or equal to 80% of the
threshold, `"medium"` only when it is strictly greater. -/
def specHealthAlert (category : String) (value threshold : ℚ) : HealthAlert :=
  { alert_type := "warning"
    category := category
    message := "Low " ++ category ++ " score detected"
    severity := if value ≤ threshold * (4/5) then "high" else "medium"
    current_value := value
    threshold := threshold }

/-- The amended-claim alert list: a warning for exactly the indicators
strictly below their threshold, with the boundary-corrected severity rule. -/
def specHealthAlerts (ind : HealthIndicators) : List HealthAlert :=
  (if ind.communication_health < 6/10 then
      [specHealthAlert "communication" ind.communication_health (6/10)] else [])
    ++ (if ind.collaboration_health < 6/10 then
      [specHealthAlert "collaboration" ind.collaboration_health (6/10)] else [])
    ++ (if ind.productivity_health < 7/10 then
      [specHealthAlert "productivity" ind.productivity_health (7/10)] else [])
    ++ (if ind.engagement_health < 6/10 then
      [specHealthAlert "engagement" ind.engagement_health (6/10)] else [])

/-! ## Integration agent health (src/agents/integration_agent.py) -/

/-- The slice of `IntegrationConfig` that `_check_integration_health` reads:
the status string, the error counter, and how many hours ago the last sync
happened (`none` when `last_sync_at` is unset, in which case the code skips
the recent-sync check entirely). -/
structure IntegrationConfig where
  status : String
  error_count : ℕ
  last_sync_hours_ago : Option ℚ
deriving DecidableEq

/-- The issue list accumulated by `_check_integration_health`
(integration_agent.py lines 730-745): error_count > 10, a recorded sync more
than 24 hours old, and a non-active status, in that order. -/
def integrationIssues (c : IntegrationConfig) : List String :=
  (if 10 < c.error_count then ["High error rate"] else [])
    ++ (match c.last_sync_hours_ago with
        | some h => if 24 < h then ["No recent sync"] else []
        | none => [])
    ++ (if c.status = "active" then [] else ["Integration status: " ++ c.status])

/-- Embeds `_check_integration_health` (integration_agent.py lines 730-757):
score starts at 1.0, subtracts 0.2 per issue when any exist, clamped to
[0, 1]; returns the score together with the issue list. -/
def check_integration_health (c : IntegrationConfig) : ℚ × List String :=
  let issues := integrationIssues c
  let score : ℚ := if issues.isEmpty then 1 else 1 - (issues.length : ℚ) * (2/10)
  (max 0 (min 1 score), issues)

/-- Embeds the overall-health aggregation of `monitor_integration_health`
(integration_agent.py lines 429-453): an integration is appended to the
report's issue list only when its health score is below 0.8; overall health
is "healthy" by default, "degraded" when that issue list is non-empty, and
"unhealthy" (overriding) when any integration's score is below 0.5. -/
def monitor_integration_health (configs : List IntegrationConfig) : String :=
  let healths := configs.map check_integration_health
  let issueEntries := healths.filter (fun h => decide (h.1 < 8/10))
  let overall := if issueEntries.isEmpty then "healthy" else "degraded"
  if healths.any (fun h => decide (h.1 < 5/10)) then "unhealthy" else overall

/-! ## Onboarding agent confidence (src/agents/onboarding_agent.py) -/

/-- The profile_data fields read by `_calculate_profile_confidence`
(onboarding_agent.py lines 412-442).  List fields keep their entries (only
lengths are used); the three work-style fields are `true` when set to a
truthy value, the five personality fields when set to a non-None value. -/
structure ProfileData where
  core_values : List String
  passions : List String
  technical_skills : List String
  soft_skills : List String
  collaboration_preference : Bool
  autonomy_preference : Bool
  structure_preference : Bool
  openness : Bool
  conscientiousness : Bool
  extraversion : Bool
  agreeableness : Bool
  neuroticism : Bool
deriving DecidableEq

/-- `sum(1 for field in fields if <field is set>)`. -/
def countTruthy (l : List Bool) : ℕ := (l.filter (fun b => b)).length

/-- Embeds `OnboardingAgent._calculate_profile_confidence`: the five partial
scores appended to the `scores` list and summed. -/
def calculate_profile_confidence (pd : ProfileData) : ℚ :=
  let values_score := min ((pd.core_values.length : ℚ) / 5) 1 * (2/10)
  let passions_score := min ((pd.passions.length : ℚ) / 5) 1 * (2/10)
  let skills_score :=
    min (((pd.technical_skills.length + pd.soft_skills.length : ℕ) : ℚ) / 10) 1 * (3/10)
  let work_style_complete := countTruthy
    [pd.collaboration_preference, pd.autonomy_preference, pd.structure_preference]
  let work_style_score := ((work_style_complete : ℚ) / 3) * (15/100)
  let personality_complete := countTruthy
    [pd.openness, pd.conscientiousness, pd.extraversion, pd.agreeableness, pd.neuroticism]
  let personality_score := ((personality_complete : ℚ) / 5) * (15/100)
  List.sum [values_score, passions_score, skills_score, work_style_score, personality_score]

/-- The concrete conversation memory of testable property 5 of the spec:
5 core values, 5 passions, 6 technical + 4 soft skills, all 3 work-style
fields and all 5 personality fields set. -/
def sampleProfileData : ProfileData :=
  { core_values := List.replicate 5 "value"
    passions := List.replicate 5 "passion"
    technical_skills := List.replicate 6 "tech"
    soft_skills := List.replicate 4 "soft"
    collaboration_preference := true
    autonomy_preference := true
    structure_preference := true
    openness := true
    conscientiousness := true
    extraversion := true
    agreeableness := true
    neuroticism := true }

/-! ## Integration agent retry loop (integration_agent.py lines 591-633) -/

/-- Observable events of `_execute_with_retries`: issuing the HTTP request
for a given attempt index, and sleeping a number of seconds. -/
inductive RetryEvent where
  | attempt (i : ℕ)
  | sleep (seconds : ℕ)
deriving DecidableEq

/-- Embeds the `for attempt in range(api_call.retries + 1)` loop: on success
the response is returned at once; on failure the loop sleeps `2 ** attempt`
seconds when `attempt < retries` and re-raises the last error on the final
attempt.  The second argument is the attempt index, the third the number of
loop iterations left. -/
def retryLoop (outcome : ℕ → Except String String) : ℕ → ℕ → List RetryEvent × Except String String
  | _, 0 => ([], Except.error "empty range")
  | a, r + 1 =>
    match outcome a with
    | Except.ok v => ([RetryEvent.attempt a], Except.ok v)
    | Except.error e =>
      if r = 0 then
        ([RetryEvent.attempt a], Except.error e)
      else
        let rest := retryLoop outcome (a + 1) r
        (RetryEvent.attempt a :: RetryEvent.sleep (2 ^ a) :: rest.1, rest.2)

/-- Embeds `IntegrationAgent._execute_with_retries` for a call configured
with `retries`: the loop runs over attempts 0 .. retries. -/
def execute_with_retries (outcome : ℕ → Except String String) (retries : ℕ) :
    List RetryEvent × Except String String :=
  retryLoop outcome 0 (retries + 1)

/-- The spec's description of the always-failing trace: attempts
0 .. retries with sleeps of 2^0, 2^1, ... seconds between consecutive
attempts. -/
def specBackoffTrace (retries : ℕ) : List RetryEvent :=
  ((List.range retries).map (fun i => [RetryEvent.attempt i, RetryEvent.sleep (2 ^ i)])).flatten
    ++ [RetryEvent.attempt retries]

/-! ## Offline queue drain (src/communication/multi_protocol_client.py) -/

/-- One message's fate in one drain cycle of `_process_offline_queue`
(multi_protocol_client.py lines 530-567): delivery is attempted over each
available protocol in turn and the message is removed on first success;
otherwise its retry counter is incremented and the message is discarded
permanently once `retry_count >= max_retries` with `max_retries = 3`.
`some rc` is the retry counter still stored in the queue, `none` means the
message was removed. -/
def processQueuedMessage (retry_count : ℕ) (protocolResults : List Bool) : Option ℕ :=
  if protocolResults.any (fun b => b) then none
  else if 3 ≤ retry_count + 1 then none
  else some (retry_count + 1)

/-- The message's queue state after `n` drain cycles, starting from a fresh
message with retry_count = 0; `results i` lists the per-protocol delivery
outcomes of cycle `i`.  A removed message stays removed (it is no longer in
the store to be dequeued). -/
def queueStateAfter (results : ℕ → List Bool) : ℕ → Option ℕ
  | 0 => some 0
  | n + 1 =>
    match queueStateAfter results n with
    | none => none
    | some rc => processQueuedMessage rc (results n)

/-! ## Multi-protocol send (multi_protocol_client.py lines 583-606) -/

/-- Connection status enumeration of the communication client. -/
inductive ConnectionStatus where
  | disconnected
  | connecting
  | connected
  | reconnecting
  | failed
deriving DecidableEq

/-- `protocol_status[p] == ConnectionStatus.CONNECTED`. -/
def statusConnected : ConnectionStatus → Bool
  | ConnectionStatus.connected => true
  | _ => false

/-- Embeds `MultiProtocolClient.send_message`: protocols are tried in the
order WebRTC, MQTT; a protocol is tried only while reporting `connected`,
and if no live send succeeds the message is enqueued to the offline queue
and the call still returns True.  Result: (returned boolean, whether the
message was enqueued). -/
def send_message (webrtc mqtt : ConnectionStatus) (webrtcSendOk mqttSendOk : Bool) :
    Bool × Bool :=
  if statusConnected webrtc && webrtcSendOk then (true, false)
  else if statusConnected mqtt && mqttSendOk then (true, false)
  else (true, true)

end FYT

/-! ## Theorems for claims C4, C5, C9 -/

/-- C5 counterexample: on the inputs {0.87, 0.92, 0.89, 0.94, 0.85, 0.91}
the derived overall_score is 0.897, not the 0.8965 the claim states. -/
theorem FYT.C5_sample_score_counterexample :
    FYT.sampleMetrics.overall_score = 897/1000
    ∧ FYT.sampleMetrics.overall_score ≠ 8965/10000 := by
  have hscore : FYT.sampleMetrics.overall_score = 897/1000 := by
    norm_num [FYT.sampleMetrics, FYT.TeamMetrics.overall_score]
  exact ⟨hscore, by rw [hscore]; norm_num⟩

/-- C5 (amended): for every TeamMetrics value the derived overall_score is
the stated weighted sum and the grade follows the stated cutoffs; the
concrete inputs {0.87, 0.92, 0.89, 0.94, 0.85, 0.91} give overall_score
0.897 (not 0.8965) and grade "A". -/
theorem FYT.C5_team_metrics_score_and_grade :
    (∀ m : FYT.TeamMetrics,
      m.overall_score = (25/100) * m.productivity + (25/100) * m.collaboration
        + (20/100) * m.satisfaction + (15/100) * m.goal_achievement
        + (10/100) * m.innovation_score + (5/100) * m.communication_quality)
    ∧ (∀ m : FYT.TeamMetrics,
      m.performance_grade =
        if 9/10 ≤ m.overall_score then "A+"
        else if 8/10 ≤ m.overall_score then "A"
        else if 7/10 ≤ m.overall_score then "B"
        else if 6/10 ≤ m.overall_score then "C"
        else "D")
    ∧ FYT.sampleMetrics.overall_score = 8970/10000
    ∧ FYT.sampleMetrics.performance_grade = "A" := by
  have hscore : FYT.sampleMetrics.overall_score = 8970/10000 := by
    norm_num [FYT.sampleMetrics, FYT.TeamMetrics.overall_score]
  refine ⟨fun m => by unfold FYT.TeamMetrics.overall_score; ring, fun m => rfl, hscore, ?_⟩
  unfold FYT.TeamMetrics.performance_grade
  rw [hscore, if_neg (by norm_num), if_pos (by norm_num)]

/-- C4 counterexample: constructing a UserProfile with confidence input 150
does not succeed with a clamped value of 100; the bounds check rejects it
with a validation error. -/
theorem FYT.C4_confidence_150_counterexample :
    FYT.validate_confidence 150 = Except.error "confidence_score out of range"
    ∧ FYT.validate_confidence 150 ≠ Except.ok 100 := by
  have h : FYT.validate_confidence 150 = Except.error "confidence_score out of range" := rfl
  refine ⟨h, ?_⟩
  rw [h]
  exact fun hc => Except.noConfusion hc

/-- C4 (amended): an input confidence value is accepted exactly when it lies
in 0-100, in which case it is stored unchanged (the clamp in the after-mode
validator is the identity on that range); out-of-range inputs fail
validation instead of being clamped. -/
theorem FYT.C4_confidence_validation (v : ℤ) :
    (0 ≤ v → v ≤ 100 → FYT.validate_confidence v = Except.ok v)
    ∧ (v < 0 ∨ 100 < v → FYT.validate_confidence v = Except.error "confidence_score out of range") := by
  constructor
  · intro h0 h100
    have hc : ¬ (v < 0 ∨ 100 < v) := by omega
    simp only [FYT.validate_confidence, if_neg hc]
    have h1 : min 100 v = v := min_eq_right h100
    have h2 : max 0 v = v := max_eq_right h0
    rw [h1, h2]
  · intro h
    simp only [FYT.validate_confidence, if_pos h]

/-- C4 witness: the in-range input 95 is accepted and stored unchanged. -/
theorem FYT.C4_confidence_validation_witness :
    (0 : ℤ) ≤ 95 ∧ (95 : ℤ) ≤ 100 ∧ FYT.validate_confidence 95 = Except.ok 95 :=
  ⟨by decide, by decide, (FYT.C4_confidence_validation 95).1 (by decide) (by decide)⟩

/-- C9: the 1-10 length bound of `Values.core` is checked on the raw input
list before the normalizer runs, and the normalizer drops whitespace-only
entries, so the accepted input [" "] yields a validated core list that is
empty — validation does not guarantee a non-empty core. -/
theorem FYT.C9_values_core_can_validate_to_empty :
    FYT.validate_values_core [" "] = Except.ok []
    ∧ FYT.validate_values_core [] = Except.error "core list too short" := by
  constructor
  · rfl
  · rfl

/-! ## Theorems for claim C1 -/

/-- C1 counterexample: for a hit with raw score 15 the claim's formula fails
— the sub-scores are computed as the unclamped 15/10 = 1.5, which is not
min(15/10, 1.0) = 1.0, and the MatchScore bounds validation rejects the
construction, so no TeamMatch is produced at all. -/
theorem FYT.C1_score_above_ten_counterexample :
    FYT.matchScoreOfHit 15 = none ∧ (15 : ℚ)/10 ≠ min ((15 : ℚ)/10) 1 := by
  constructor
  · simp only [FYT.matchScoreOfHit]
    rw [if_neg]
    intro hc
    have h : (15 : ℚ)/10 ≤ 1 := hc.2.2.2.1
    norm_num at h
  · have h : min ((15 : ℚ)/10) 1 = 1 := min_eq_right (by norm_num)
    rw [h]
    norm_num

/-- C1 (amended): for every hit whose raw score lies in [0, 10] the
constructed MatchScore has its four sub-scores and overall_score all
identical, each equal to min(raw_score/10, 1) = raw_score/10; for a raw
score above 10 the unclamped sub-scores fail the 0-1 field validation and
no TeamMatch is constructed. -/
theorem FYT.C1_match_score_normalization (s : ℚ) (h0 : 0 ≤ s) (h10 : s ≤ 10) :
    FYT.matchScoreOfHit s =
      some { overall_score := min (s/10) 1
             skill_alignment := min (s/10) 1
             value_alignment := min (s/10) 1
             work_style_compatibility := min (s/10) 1
             purpose_alignment := min (s/10) 1 } := by
  have hdiv0 : 0 ≤ s/10 := by positivity
  have hdiv1 : s/10 ≤ 1 := (div_le_one (by norm_num : (0:ℚ) < 10)).mpr h10
  have hmin : min (s/10) 1 = s/10 := min_eq_left hdiv1
  have hmin0 : 0 ≤ min (s/10) 1 := by rw [hmin]; exact hdiv0
  have hmin1 : min (s/10) 1 ≤ 1 := by rw [hmin]; exact hdiv1
  simp only [FYT.matchScoreOfHit]
  rw [if_pos ⟨hmin0, hmin1, hdiv0, hdiv1, hdiv0, hdiv1, hdiv0, hdiv1, hdiv0, hdiv1⟩]
  rw [hmin]

/-- C1 witness: the raw score 8.5 of the claim is in range and produces the
MatchScore whose five fields all equal 0.85. -/
theorem FYT.C1_match_score_normalization_witness :
    (0 : ℚ) ≤ 17/2 ∧ (17 : ℚ)/2 ≤ 10
    ∧ FYT.matchScoreOfHit (17/2) =
        some { overall_score := 17/20, skill_alignment := 17/20
               value_alignment := 17/20, work_style_compatibility := 17/20
               purpose_alignment := 17/20 } := by
  refine ⟨by norm_num, by norm_num, ?_⟩
  have h := FYT.C1_match_score_normalization (17/2) (by norm_num) (by norm_num)
  have hv : min ((17 : ℚ)/2/10) 1 = 17/20 := by
    rw [min_eq_left (by norm_num)]
    norm_num
  rw [h, hv]

/-! ## Theorems for claim C2 -/

/-- C2 counterexample: with the communication indicator exactly at 80% of
its threshold (0.48 = 0.6 * 0.8) the code emits severity "high", whereas
the claim says a value exactly equal to threshold * 0.8 gets "medium". -/
theorem FYT.C2_severity_boundary_counterexample :
    (12/25 : ℚ) = (6/10) * (4/5)
    ∧ (FYT.generate_health_alerts
        { communication_health := 12/25, collaboration_health := 1
          productivity_health := 1, engagement_health := 1 }).map
        FYT.HealthAlert.severity = ["high"]
    ∧ "high" ≠ "medium" := by
  refine ⟨by norm_num, ?_, by decide⟩
  unfold FYT.generate_health_alerts FYT.checkIndicator FYT.healthAlert
  rw [if_pos (by norm_num : (12/25 : ℚ) < 6/10),
    if_neg (by norm_num : ¬ ((6/10 : ℚ) * (4/5) < 12/25)),
    if_neg (by norm_num : ¬ ((1 : ℚ) < 6/10)),
    if_neg (by norm_num : ¬ ((1 : ℚ) < 7/10)),
    if_neg (by norm_num : ¬ ((1 : ℚ) < 6/10))]
  rfl

/-- C2 (amended): for every indicator map the Team Agent raises a warning
alert for exactly the indicators strictly below their threshold
(communication 0.6, collaboration 0.6, productivity 0.7, engagement 0.6),
and an alert's severity is "high" when the value is less than OR EQUAL to
threshold * 0.8 and "medium" only when it is strictly greater (so a value
exactly equal to threshold * 0.8 gets severity "high"). -/
theorem FYT.C2_health_alerts (ind : FYT.HealthIndicators) :
    FYT.generate_health_alerts ind = FYT.specHealthAlerts ind := by
  have hsev : ∀ c (v t : ℚ), FYT.checkIndicator c v t =
      (if v < t then [FYT.specHealthAlert c v t] else []) := by
    intro c v t
    unfold FYT.checkIndicator FYT.healthAlert FYT.specHealthAlert
    rcases le_or_lt v (t * (4/5)) with h | h
    · rw [if_neg (not_lt.mpr h), if_pos h]
    · rw [if_pos h, if_neg (not_le.mpr h)]
  unfold FYT.generate_health_alerts FYT.specHealthAlerts
  rw [hsev, hsev, hsev, hsev]

/-! ## Theorem for claim C6 -/

/-- C6: for every conversation memory the Onboarding Agent's confidence
score is the stated weighted sum of the five partial scores, and the
concrete profile with 5 core values, 5 passions, 6 technical + 4 soft
skills, all 3 work-style fields and all 5 personality fields set scores
exactly 1.0. -/
theorem FYT.C6_onboarding_confidence :
    (∀ pd : FYT.ProfileData,
      FYT.calculate_profile_confidence pd =
        min ((pd.core_values.length : ℚ) / 5) 1 * (2/10)
          + min ((pd.passions.length : ℚ) / 5) 1 * (2/10)
          + min (((pd.technical_skills.length : ℚ) + (pd.soft_skills.length : ℚ)) / 10) 1 * (3/10)
          + ((FYT.countTruthy [pd.collaboration_preference, pd.autonomy_preference,
              pd.structure_preference] : ℚ) / 3) * (15/100)
          + ((FYT.countTruthy [pd.openness, pd.conscientiousness, pd.extraversion,
              pd.agreeableness, pd.neuroticism] : ℚ) / 5) * (15/100))
    ∧ FYT.calculate_profile_confidence FYT.sampleProfileData = 1 := by
  constructor
  · intro pd
    simp only [FYT.calculate_profile_confidence, List.sum_cons, List.sum_nil]
    push_cast
    ring
  · simp only [FYT.calculate_profile_confidence, FYT.sampleProfileData, FYT.countTruthy,
      List.sum_cons, List.sum_nil, List.length_replicate]
    norm_num

/-! ## Theorem for claim C10 -/

/-- C10: MultiProtocolClient.send_message returns True for every input
(modulo the durable queue write, which is outside the return path); in
particular with WebRTC reporting connected but its send failing and MQTT
disconnected, the message is enqueued and the call still reports success. -/
theorem FYT.C10_send_message_always_true :
    (∀ (w m : FYT.ConnectionStatus) (wOk mOk : Bool),
      (FYT.send_message w m wOk mOk).1 = true)
    ∧ FYT.send_message FYT.ConnectionStatus.connected FYT.ConnectionStatus.disconnected
        false false = (true, true) := by
  constructor
  · intro w m wOk mOk
    unfold FYT.send_message
    split_ifs <;> rfl
  · rfl

/-! ## Theorems for claim C8 -/

/-- C8: a queued message is removed on first successful delivery; a drain
cycle on which every protocol fails increments its retry counter, removing
it permanently once the counter reaches 3; removal is permanent; and under
delivery that always fails the message survives exactly the first three
cycles (retry counter n after cycle n) and is gone from cycle 3 onwards —
it is never attempted a 4th time. -/
theorem FYT.C8_offline_queue_retry :
    (∀ (results : ℕ → List Bool) (n rc : ℕ),
      FYT.queueStateAfter results n = some rc →
      (results n).any (fun b => b) = true →
      FYT.queueStateAfter results (n + 1) = none)
    ∧ (∀ (results : ℕ → List Bool) (n rc : ℕ),
      FYT.queueStateAfter results n = some rc →
      (results n).any (fun b => b) = false →
      FYT.queueStateAfter results (n + 1) = if rc + 1 < 3 then some (rc + 1) else none)
    ∧ (∀ (results : ℕ → List Bool) (n : ℕ),
      FYT.queueStateAfter results n = none →
      FYT.queueStateAfter results (n + 1) = none)
    ∧ (∀ (results : ℕ → List Bool),
      (∀ i, (results i).any (fun b => b) = false) →
      ∀ n, FYT.queueStateAfter results n = if n < 3 then some n else none) := by
  refine ⟨?_, ?_, ?_, ?_⟩
  · intro results n rc h hs
    simp [FYT.queueStateAfter, h, FYT.processQueuedMessage, hs]
  · intro results n rc h hs
    simp only [FYT.queueStateAfter, h, FYT.processQueuedMessage, hs, Bool.false_eq_true,
      if_false]
    rcases Nat.lt_or_ge (rc + 1) 3 with hlt | hge
    · rw [if_neg (by omega), if_pos hlt]
    · rw [if_pos (by omega), if_neg (by omega)]
  · intro results n h
    simp [FYT.queueStateAfter, h]
  · intro results hall n
    induction n with
    | zero => simp [FYT.queueStateAfter]
    | succ k ih =>
      rw [FYT.queueStateAfter, ih]
      by_cases hk : k < 3
      · rw [if_pos hk]
        simp only [FYT.processQueuedMessage, hall k, Bool.false_eq_true, if_false]
        rcases Nat.lt_or_ge (k + 1) 3 with hlt | hge
        · rw [if_neg (by omega), if_pos hlt]
        · rw [if_pos (by omega), if_neg (by omega)]
      · rw [if_neg hk, if_neg (by omega)]

/-- C8 witness: with delivery failing on every cycle, the message is still
queued (retry counter 2) after two drain cycles and permanently removed
after the third. -/
theorem FYT.C8_offline_queue_retry_witness :
    FYT.queueStateAfter (fun _ => [false]) 2 = some 2
    ∧ FYT.queueStateAfter (fun _ => [false]) 3 = none := by
  have h := FYT.C8_offline_queue_retry.2.2.2 (fun _ => [false]) (fun _ => rfl)
  exact ⟨(h 2).trans (by simp), (h 3).trans (by simp)⟩

/-! ## Theorems for claim C7 -/

/-- Helper: when every attempt fails, the retry loop started at attempt `a`
with `r + 1` iterations left performs attempts `a .. a + r`, sleeping
`2 ^ i` seconds after each non-final attempt `i`, and re-raises the error of
the final attempt. -/
theorem FYT.retryLoop_allFail (err : ℕ → String) :
    ∀ (r a : ℕ),
      FYT.retryLoop (fun i => Except.error (err i)) a (r + 1) =
        (((List.range' a r).map
            (fun i => [FYT.RetryEvent.attempt i, FYT.RetryEvent.sleep (2 ^ i)])).flatten
          ++ [FYT.RetryEvent.attempt (a + r)],
         Except.error (err (a + r))) := by
  intro r
  induction r with
  | zero =>
    intro a
    simp [FYT.retryLoop]
  | succ k ih =>
    intro a
    rw [FYT.retryLoop]
    simp only [if_neg (Nat.succ_ne_zero k), ih (a + 1), List.range'_succ, List.map_cons,
      List.flatten_cons, List.cons_append, List.nil_append]
    have hidx : a + (k + 1) = a + 1 + k := by omega
    rw [hidx]

/-- C7: an API call whose underlying request always fails is attempted
exactly retries + 1 times, with a sleep of 2^attempt seconds between
consecutive attempts, before the last error is re-raised; for retries = 3
this is attempts 0-3 with sleeps of 1, 2 and 4 seconds. -/
theorem FYT.C7_retry_backoff :
    (∀ (err : ℕ → String) (retries : ℕ),
      FYT.execute_with_retries (fun i => Except.error (err i)) retries
        = (FYT.specBackoffTrace retries, Except.error (err retries)))
    ∧ FYT.execute_with_retries (fun _ => Except.error "network failure") 3
        = ([FYT.RetryEvent.attempt 0, FYT.RetryEvent.sleep 1,
            FYT.RetryEvent.attempt 1, FYT.RetryEvent.sleep 2,
            FYT.RetryEvent.attempt 2, FYT.RetryEvent.sleep 4,
            FYT.RetryEvent.attempt 3], Except.error "network failure") := by
  constructor
  · intro err retries
    unfold FYT.execute_with_retries FYT.specBackoffTrace
    rw [FYT.retryLoop_allFail err retries 0, List.range_eq_range']
    simp
  · rfl

/-! ## Theorems for claim C3 -/

/-- Helper: the "any score below q" test of the monitor, as a membership
statement. -/
theorem FYT.monitor_any_iff (cs : List FYT.IntegrationConfig) (q : ℚ) :
    ((cs.map FYT.check_integration_health).any (fun h => decide (h.1 < q)) = true)
      ↔ ∃ c ∈ cs, (FYT.check_integration_health c).1 < q := by
  rw [List.any_eq_true]
  constructor
  · rintro ⟨x, hx, hpx⟩
    rcases List.mem_map.mp hx with ⟨c, hc, rfl⟩
    exact ⟨c, hc, of_decide_eq_true hpx⟩
  · rintro ⟨c, hc, hlt⟩
    exact ⟨FYT.check_integration_health c, List.mem_map.mpr ⟨c, hc, rfl⟩, decide_eq_true hlt⟩

/-- Helper: the monitor's per-integration issue list is empty exactly when
no integration's score is below q. -/
theorem FYT.monitor_filter_nil_iff (cs : List FYT.IntegrationConfig) (q : ℚ) :
    ((cs.map FYT.check_integration_health).filter (fun h => decide (h.1 < q)) = [])
      ↔ ∀ c ∈ cs, ¬ (FYT.check_integration_health c).1 < q := by
  rw [List.filter_eq_nil_iff]
  constructor
  · intro H c hc hlt
    exact H _ (List.mem_map.mpr ⟨c, hc, rfl⟩) (decide_eq_true hlt)
  · intro H x hx hdec
    rcases List.mem_map.mp hx with ⟨c, hc, rfl⟩
    exact H c hc (of_decide_eq_true hdec)

/-- Helper: the concrete integration of the claim — error_count 15, last
sync 48 hours ago, non-active status — has exactly the three issues and
score 0.4. -/
theorem FYT.check_health_three_issues :
    FYT.check_integration_health ⟨"error", 15, some 48⟩
      = (2/5, ["High error rate", "No recent sync", "Integration status: error"]) := by
  have hiss : FYT.integrationIssues ⟨"error", 15, some 48⟩
      = ["High error rate", "No recent sync", "Integration status: error"] := by
    simp only [FYT.integrationIssues]
    rw [if_pos (by norm_num : (10:ℕ) < 15), if_pos (by norm_num : (24:ℚ) < 48),
      if_neg (by decide : ¬ (("error" : String) = "active"))]
    rfl
  simp only [FYT.check_integration_health, hiss]
  rw [if_neg (by decide : ¬ ((["High error rate", "No recent sync",
        "Integration status: error"] : List String).isEmpty = true))]
  have h1 : ((["High error rate", "No recent sync",
      "Integration status: error"] : List String).length : ℚ) = 3 := by norm_num
  rw [h1]
  have h2 : (1:ℚ) - 3 * (2/10) = 2/5 := by norm_num
  rw [h2, min_eq_right (by norm_num), max_eq_right (by norm_num)]

/-- C3 counterexample: an integration with exactly one detected issue
(error_count 15, recent sync, active status) has score 0.8, is not added to
the monitor's issue list, and the overall platform health stays "healthy" —
not "degraded" as the claim requires for an integration with issues. -/
theorem FYT.C3_single_issue_counterexample :
    (FYT.check_integration_health ⟨"active", 15, some 1⟩).2.length = 1
    ∧ FYT.monitor_integration_health [⟨"active", 15, some 1⟩] = "healthy"
    ∧ "healthy" ≠ "degraded" := by
  have hiss : FYT.integrationIssues ⟨"active", 15, some 1⟩ = ["High error rate"] := by
    simp only [FYT.integrationIssues]
    rw [if_pos (by norm_num : (10:ℕ) < 15), if_neg (by norm_num : ¬ ((24:ℚ) < 1))]
    simp
  have hcheck : FYT.check_integration_health ⟨"active", 15, some 1⟩
      = (4/5, ["High error rate"]) := by
    simp only [FYT.check_integration_health, hiss]
    rw [if_neg (by decide : ¬ ((["High error rate"] : List String).isEmpty = true))]
    have h1 : ((["High error rate"] : List String).length : ℚ) = 1 := by norm_num
    rw [h1]
    have h2 : (1:ℚ) - 1 * (2/10) = 4/5 := by norm_num
    rw [h2, min_eq_right (by norm_num), max_eq_right (by norm_num)]
  have hany : ([((4:ℚ)/5, (["High error rate"] : List String))].any
      (fun h => decide (h.1 < 5/10))) = false := by
    simp only [List.any_cons, List.any_nil, Bool.or_false]
    rw [decide_eq_false_iff_not]
    norm_num
  have hfil : ([((4:ℚ)/5, (["High error rate"] : List String))].filter
      (fun h => decide (h.1 < 8/10))) = [] := by
    simp only [List.filter_cons, List.filter_nil]
    rw [if_neg]
    intro hdec
    have hbad := of_decide_eq_true hdec
    norm_num at hbad
  refine ⟨by rw [hcheck]; rfl, ?_, by decide⟩
  simp only [FYT.monitor_integration_health, List.map_cons, List.map_nil, hcheck, hany, hfil]
  rw [if_neg (by simp), if_pos (by simp)]

/-- C3 (amended): the per-integration score is 1.0 minus 0.2 per detected
issue clamped to [0, 1]; the concrete 3-issue integration scores exactly
0.4; overall health is "unhealthy" exactly when some integration scores
below 0.5; it is "healthy" whenever no integration scores below 0.8 (even
if some integration has one issue), and "degraded" whenever some
integration scores below 0.8 (two or more issues) while none is below
0.5. -/
theorem FYT.C3_integration_health :
    (∀ c : FYT.IntegrationConfig,
      (FYT.check_integration_health c).1
        = max 0 (min 1 (1 - ((FYT.check_integration_health c).2.length : ℚ) * (2/10))))
    ∧ FYT.check_integration_health ⟨"error", 15, some 48⟩
        = (2/5, ["High error rate", "No recent sync", "Integration status: error"])
    ∧ (∀ cs : List FYT.IntegrationConfig,
      FYT.monitor_integration_health cs = "unhealthy"
        ↔ ∃ c ∈ cs, (FYT.check_integration_health c).1 < 5/10)
    ∧ (∀ cs : List FYT.IntegrationConfig,
      (∀ c ∈ cs, ¬ (FYT.check_integration_health c).1 < 8/10)
        → FYT.monitor_integration_health cs = "healthy")
    ∧ (∀ cs : List FYT.IntegrationConfig,
      (∃ c ∈ cs, (FYT.check_integration_health c).1 < 8/10)
        → (∀ c ∈ cs, ¬ (FYT.check_integration_health c).1 < 5/10)
        → FYT.monitor_integration_health cs = "degraded") := by
  refine ⟨?_, FYT.check_health_three_issues, ?_, ?_, ?_⟩
  · intro c
    simp only [FYT.check_integration_health]
    by_cases h : (FYT.integrationIssues c).isEmpty = true
    · rw [if_pos h]
      have hnil : FYT.integrationIssues c = [] := List.isEmpty_iff.mp h
      rw [hnil]
      simp
    · rw [if_neg h]
  · intro cs
    simp only [FYT.monitor_integration_health]
    by_cases H : (cs.map FYT.check_integration_health).any (fun h => decide (h.1 < 5/10)) = true
    · rw [if_pos H]
      exact iff_of_true rfl ((FYT.monitor_any_iff cs (5/10)).mp H)
    · rw [if_neg H]
      refine iff_of_false ?_ (fun hex => H ((FYT.monitor_any_iff cs (5/10)).mpr hex))
      by_cases Hf : ((cs.map FYT.check_integration_health).filter
          (fun h => decide (h.1 < 8/10))).isEmpty = true
      · rw [if_pos Hf]
        intro hcontra
        exact absurd hcontra (by decide)
      · rw [if_neg Hf]
        intro hcontra
        exact absurd hcontra (by decide)
  · intro cs H
    have Ha : ¬ ((cs.map FYT.check_integration_health).any
        (fun h => decide (h.1 < 5/10)) = true) := by
      intro hany
      rcases (FYT.monitor_any_iff cs (5/10)).mp hany with ⟨c, hc, hlt⟩
      exact H c hc (lt_trans hlt (by norm_num))
    have Hf : ((cs.map FYT.check_integration_health).filter
        (fun h => decide (h.1 < 8/10))) = [] :=
      (FYT.monitor_filter_nil_iff cs (8/10)).mpr H
    simp only [FYT.monitor_integration_health]
    rw [if_neg Ha, if_pos (List.isEmpty_iff.mpr Hf)]
  · intro cs Hex Hnone
    have Ha : ¬ ((cs.map FYT.check_integration_health).any
        (fun h => decide (h.1 < 5/10)) = true) := by
      intro hany
      rcases (FYT.monitor_any_iff cs (5/10)).mp hany with ⟨c, hc, hlt⟩
      exact Hnone c hc hlt
    have Hf : ¬ (((cs.map FYT.check_integration_health).filter
        (fun h => decide (h.1 < 8/10))).isEmpty = true) := by
      intro hemp
      rcases Hex with ⟨c, hc, hlt⟩
      exact ((FYT.monitor_filter_nil_iff cs (8/10)).mp (List.isEmpty_iff.mp hemp)) c hc hlt
    simp only [FYT.monitor_integration_health]
    rw [if_neg Ha, if_neg Hf]

/-- C3 witness: an empty integration cache reports "healthy", and a cache
holding one integration with two issues (error_count 15 and non-active
status, score 0.6) reports "degraded". -/
theorem FYT.C3_integration_health_witness :
    FYT.monitor_integration_health [] = "healthy"
    ∧ FYT.monitor_integration_health [⟨"inactive", 15, some 1⟩] = "degraded" := by
  constructor
  · exact FYT.C3_integration_health.2.2.2.1 [] (fun c hc => absurd hc (List.not_mem_nil c))
  · have hiss : FYT.integrationIssues ⟨"inactive", 15, some 1⟩
        = ["High error rate", "Integration status: inactive"] := by
      simp only [FYT.integrationIssues]
      rw [if_pos (by norm_num : (10:ℕ) < 15), if_neg (by norm_num : ¬ ((24:ℚ) < 1)),
        if_neg (by decide : ¬ (("inactive" : String) = "active"))]
      rfl
    have hsc : (FYT.check_integration_health ⟨"inactive", 15, some 1⟩).1 = 3/5 := by
      simp only [FYT.check_integration_health, hiss]
      rw [if_neg (by decide : ¬ ((["High error rate",
            "Integration status: inactive"] : List String).isEmpty = true))]
      have h1 : ((["High error rate",
          "Integration status: inactive"] : List String).length : ℚ) = 2 := by norm_num
      rw [h1]
      have h2 : (1:ℚ) - 2 * (2/10) = 3/5 := by norm_num
      rw [h2, min_eq_right (by norm_num), max_eq_right (by norm_num)]
    exact FYT.C3_integration_health.2.2.2.2 [⟨"inactive", 15, some 1⟩]
      ⟨⟨"inactive", 15, some 1⟩, List.mem_singleton.mpr rfl, by rw [hsc]; norm_num⟩
      (fun c hc => by
        rw [List.mem_singleton] at hc
        subst hc
        rw [hsc]
        norm_num)
